import Mathlib

/-!
Verification of the pool-monitor supervisory core (esp32-poolmon).

This file gives a shallow embedding of the control state machines in
`src/main/control.c` and of the page/display engine in `src/main/display.c`,
and proves the specification claims about them.

Modelling conventions:
* C `float` sensor/configuration values (temperatures, deltas, flow rates)
  are modelled as rationals (`ℚ`); the code only compares them with `<=`/`>=`.
* `uint32_t` and `TickType_t` values are modelled as `Nat` with an explicit
  `% 2 ^ 32` wherever the C program performs arithmetic that can wrap
  (the unsigned decrement of the cycle counter, the `cycle_start + duration`
  addition).  Plain copies and comparisons of in-range values need no mod.
* The float-to-tick conversion `(TickType_t)(duration * configTICK_RATE_HZ)`
  is modelled by taking the resulting tick count (`on_ticks`, `pause_ticks`)
  directly as a `Nat` input.
-/

/-- Pump state `avr_pump_state_t`: `AVR_PUMP_STATE_OFF` / `AVR_PUMP_STATE_ON`
(pump actuation values and CP controller state, from `avr_support.h`
usage in `control.c`). -/
inductive PumpState where
  | off
  | on
deriving DecidableEq, Repr

/-- The store values read by one tick of `control_cp_task` in
`src/main/control.c`: `T1` (temp instance 0), `T2` (temp instance 1),
`RESOURCE_ID_CONTROL_CP_ON_DELTA` and `RESOURCE_ID_CONTROL_CP_OFF_DELTA`. -/
structure CPInputs where
  t1 : ℚ
  t2 : ℚ
  on_delta : ℚ
  off_delta : ℚ

/-- One iteration of the `while (1)` loop body of `control_cp_task`
(`src/main/control.c` lines 60-107): the hysteresis transition decision
plus the actuation emitted when `transition` is true.  The second component
is the argument of the `avr_support_set_cp_pump` call, or `none` when no
call is made this tick. -/
def control_cp_step (env : CPInputs) (state : PumpState) : PumpState × Option PumpState :=
  match state with
  | PumpState.off =>
    if env.t1 - env.t2 ≥ env.on_delta then
      (PumpState.on, some PumpState.on)
    else
      (PumpState.off, none)
  | PumpState.on =>
    if env.t1 - env.t2 ≤ env.off_delta then
      (PumpState.off, some PumpState.off)
    else
      (PumpState.on, none)

/-- C1: CP controller hysteresis step: for every tick, if the CP state is
OFF and `T1 − T2 ≥ on-delta` the state becomes ON; if the state is ON and
`T1 − T2 ≤ off-delta` the state becomes OFF; for every temperature pair with
`T1 − T2` strictly between off-delta and on-delta the state is unchanged and
no actuation call is made. -/
theorem cp_hysteresis_step (env : CPInputs) (state : PumpState) :
    (state = PumpState.off → env.t1 - env.t2 ≥ env.on_delta →
      (control_cp_step env state).1 = PumpState.on) ∧
    (state = PumpState.on → env.t1 - env.t2 ≤ env.off_delta →
      (control_cp_step env state).1 = PumpState.off) ∧
    (env.off_delta < env.t1 - env.t2 → env.t1 - env.t2 < env.on_delta →
      (control_cp_step env state).1 = state ∧ (control_cp_step env state).2 = none) := by
  refine ⟨?_, ?_, ?_⟩
  · rintro rfl hge
    simp [control_cp_step, hge]
  · rintro rfl hle
    simp [control_cp_step, hle]
  · intro hlo hhi
    cases state
    · have : ¬ (env.t1 - env.t2 ≥ env.on_delta) := not_le.mpr hhi
      simp [control_cp_step, this]
    · have : ¬ (env.t1 - env.t2 ≤ env.off_delta) := not_le.mpr hlo
      simp [control_cp_step, this]

/-- Witness for `cp_hysteresis_step`, using the spec's scenario values:
`T1 = 30, T2 = 24, on_delta = 5` turns the pump ON from OFF;
`T1 = 25.5, T2 = 24, off_delta = 2` turns it OFF from ON;
`T1 = 27, T2 = 24` with `off_delta = 2 < 3 < 5 = on_delta` leaves
either state unchanged with no actuation call. -/
theorem cp_hysteresis_step_witness :
    (control_cp_step ⟨30, 24, 5, 2⟩ PumpState.off).1 = PumpState.on ∧
    (control_cp_step ⟨51/2, 24, 5, 2⟩ PumpState.on).1 = PumpState.off ∧
    ((control_cp_step ⟨27, 24, 5, 2⟩ PumpState.on).1 = PumpState.on ∧
      (control_cp_step ⟨27, 24, 5, 2⟩ PumpState.on).2 = none) := by
  refine ⟨?_, ?_, ?_⟩
  · exact (cp_hysteresis_step ⟨30, 24, 5, 2⟩ PumpState.off).1 rfl (by norm_num)
  · exact (cp_hysteresis_step ⟨51/2, 24, 5, 2⟩ PumpState.on).2.1 rfl (by norm_num)
  · exact (cp_hysteresis_step ⟨27, 24, 5, 2⟩ PumpState.on).2.2 (by norm_num) (by norm_num)

/-- The three PP controller states, `state_t` in `control_pp_task`
(`src/main/control.c` lines 121-126): `STATE_PP_OFF`, `STATE_PP_ON`,
`STATE_PP_PAUSE`. -/
inductive PPMode where
  | off
  | ppOn
  | pause
deriving DecidableEq, Repr

/-- The store values read by `control_pp_task` each tick:
flow rate, published CP state, flow threshold, configured cycle count,
and the cycle ON/PAUSE durations already converted to ticks
(the code computes `(TickType_t)(duration * configTICK_RATE_HZ)`). -/
structure PPInputs where
  flow_rate : ℚ
  cp_state : PumpState
  flow_threshold : ℚ
  cycle_count : Nat
  on_ticks : Nat
  pause_ticks : Nat

/-- The local state of `control_pp_task`: `state`, `cycle_start_time`
(a `TickType_t`, i.e. `uint32_t`) and the remaining-cycle counter `n`
(a `uint32_t`). -/
structure PPState where
  mode : PPMode
  cycle_start : Nat
  n : Nat
deriving DecidableEq, Repr

/-- One iteration of the `while (1)` loop body of `control_pp_task`
(`src/main/control.c` lines 135-221), with `now` the value of
`last_wake_time = xTaskGetTickCount()` for this tick.  The second
component is the argument of the `avr_support_set_pp_pump` call made this
tick, or `none`.  Unsigned wraparound is kept explicit: the decrement
`--n` of the freshly loaded cycle count is `(cycle_count + 2^32 - 1) % 2^32`,
and `cycle_end_time = cycle_start + duration` is a `uint32_t` addition. -/
def control_pp_step (env : PPInputs) (now : Nat) (s : PPState) : PPState × Option PumpState :=
  match s.mode with
  | PPMode.off =>
    if env.cp_state = PumpState.on ∧ env.flow_rate ≤ env.flow_threshold then
      (⟨PPMode.ppOn, now, (env.cycle_count + (2 ^ 32 - 1)) % 2 ^ 32⟩, some PumpState.on)
    else
      (s, none)
  | PPMode.ppOn =>
    let cycle_end := (s.cycle_start + env.on_ticks) % 2 ^ 32
    if now ≥ cycle_end then
      (⟨PPMode.pause, now, s.n⟩, some PumpState.off)
    else
      (s, none)
  | PPMode.pause =>
    let cycle_end := (s.cycle_start + env.pause_ticks) % 2 ^ 32
    if s.n > 0 then
      if now ≥ cycle_end then
        (⟨PPMode.ppOn, now, s.n - 1⟩, some PumpState.on)
      else
        (s, none)
    else
      if now ≥ cycle_end then
        (⟨PPMode.off, s.cycle_start, s.n⟩, some PumpState.off)
      else
        (s, none)

/-- C6: PP OFF→ON trigger: in the OFF state the controller transitions to
ON exactly when the published CP state reads ON and the flow rate is ≤ the
configured flow threshold; on that transition it turns the actuator ON,
records the cycle-start time (`now`), and sets the remaining-cycle counter to
the configured cycle-count minus one (the `uint32_t` decrement
`(cycle_count + 2^32 - 1) % 2^32`, which equals `cycle_count - 1` for every
cycle count in `[1, 2^32)`). -/
theorem pp_off_to_on_trigger (env : PPInputs) (now : Nat) (s : PPState)
    (hmode : s.mode = PPMode.off) :
    ((control_pp_step env now s).1.mode = PPMode.ppOn ↔
      (env.cp_state = PumpState.on ∧ env.flow_rate ≤ env.flow_threshold)) ∧
    (env.cp_state = PumpState.on → env.flow_rate ≤ env.flow_threshold →
      control_pp_step env now s =
        (⟨PPMode.ppOn, now, (env.cycle_count + (2 ^ 32 - 1)) % 2 ^ 32⟩, some PumpState.on)) ∧
    (env.cp_state = PumpState.on → env.flow_rate ≤ env.flow_threshold →
      1 ≤ env.cycle_count → env.cycle_count < 2 ^ 32 →
      (control_pp_step env now s).1.n = env.cycle_count - 1) := by
  have hstep : control_pp_step env now s =
      if env.cp_state = PumpState.on ∧ env.flow_rate ≤ env.flow_threshold then
        (⟨PPMode.ppOn, now, (env.cycle_count + (2 ^ 32 - 1)) % 2 ^ 32⟩, some PumpState.on)
      else (s, none) := by
    unfold control_pp_step
    rw [hmode]
  refine ⟨?_, ?_, ?_⟩
  · constructor
    · intro h
      by_contra hc
      rw [hstep, if_neg hc] at h
      rw [hmode] at h
      exact PPMode.noConfusion h
    · intro h
      rw [hstep, if_pos h]
  · intro h1 h2
    rw [hstep, if_pos ⟨h1, h2⟩]
  · intro h1 h2 h3 h4
    rw [hstep, if_pos ⟨h1, h2⟩]
    show (env.cycle_count + (2 ^ 32 - 1)) % 2 ^ 32 = env.cycle_count - 1
    have : env.cycle_count + (2 ^ 32 - 1) = (env.cycle_count - 1) + 1 * 2 ^ 32 := by omega
    rw [this, Nat.add_mul_mod_self_right, Nat.mod_eq_of_lt (by omega)]

/-- Witness for `pp_off_to_on_trigger`, using the spec's scenario:
PP OFF, CP state ON, flow = 2.0, threshold = 5.0, cycle_count = 2
→ PP transitions to ON, records the cycle-start time, remaining cycles = 1. -/
theorem pp_off_to_on_trigger_witness :
    ((control_pp_step ⟨2, PumpState.on, 5, 2, 30, 30⟩ 100 ⟨PPMode.off, 0, 0⟩).1.mode
        = PPMode.ppOn ↔
      ((⟨2, PumpState.on, 5, 2, 30, 30⟩ : PPInputs).cp_state = PumpState.on ∧
        (2 : ℚ) ≤ 5)) ∧
    control_pp_step ⟨2, PumpState.on, 5, 2, 30, 30⟩ 100 ⟨PPMode.off, 0, 0⟩ =
      (⟨PPMode.ppOn, 100, (2 + (2 ^ 32 - 1)) % 2 ^ 32⟩, some PumpState.on) ∧
    (control_pp_step ⟨2, PumpState.on, 5, 2, 30, 30⟩ 100 ⟨PPMode.off, 0, 0⟩).1.n = 1 := by
  have h := pp_off_to_on_trigger ⟨2, PumpState.on, 5, 2, 30, 30⟩ 100 ⟨PPMode.off, 0, 0⟩ rfl
  exact ⟨h.1, h.2.1 rfl (by norm_num), h.2.2 rfl (by norm_num) (by norm_num) (by norm_num)⟩

/-- C4: Actuation only on transitions: on every tick of either controller,
a pump-actuation call is emitted if and only if the controller's state changed
on that tick; while the state is stable no actuation call is made. -/
theorem actuation_only_on_transitions (cenv : CPInputs) (cs : PumpState)
    (penv : PPInputs) (now : Nat) (ps : PPState) :
    ((control_cp_step cenv cs).2.isSome ↔ (control_cp_step cenv cs).1 ≠ cs) ∧
    ((control_pp_step penv now ps).2.isSome ↔
      (control_pp_step penv now ps).1.mode ≠ ps.mode) := by
  constructor
  · cases cs
    · by_cases h : cenv.t1 - cenv.t2 ≥ cenv.on_delta <;> simp [control_cp_step, h]
    · by_cases h : cenv.t1 - cenv.t2 ≤ cenv.off_delta <;> simp [control_cp_step, h]
  · obtain ⟨m, c, n⟩ := ps
    cases m
    · by_cases h : penv.cp_state = PumpState.on ∧ penv.flow_rate ≤ penv.flow_threshold <;>
        simp [control_pp_step, h]
    · by_cases h : (c + penv.on_ticks) % 4294967296 ≤ now <;>
        simp [control_pp_step, h]
    · by_cases hn : n > 0 <;>
        by_cases h : (c + penv.pause_ticks) % 4294967296 ≤ now <;>
        simp [control_pp_step, hn, h]

/-- Iterated PP controller ticks.  `control_pp_run env c P s k` is the state
after `k` further iterations of the `control_pp_task` loop starting from
state `s`, where the tick immediately producing `s` observed
`last_wake_time = c` and `vTaskDelayUntil` advances the wake time by `P`
ticks per iteration, so iteration `k` (1-based) observes `c + k * P`. -/
def control_pp_run (env : PPInputs) (c P : Nat) (s : PPState) : Nat → PPState
  | 0 => s
  | k + 1 => (control_pp_step env (c + (k + 1) * P) (control_pp_run env c P s k)).1

/-- Number of completed ON→PAUSE transitions (the spec's "ON/PAUSE pairs")
within the first `K` iterations of `control_pp_run`. -/
def pp_pairs (env : PPInputs) (c P : Nat) (s : PPState) : Nat → Nat
  | 0 => 0
  | K + 1 =>
    pp_pairs env c P s K +
      (if (control_pp_run env c P s K).mode = PPMode.ppOn ∧
          (control_pp_run env c P s (K + 1)).mode = PPMode.pause then 1 else 0)

theorem control_pp_run_add (env : PPInputs) (c P : Nat) (s : PPState) (k1 k2 : Nat) :
    control_pp_run env c P s (k1 + k2) =
      control_pp_run env (c + k1 * P) P (control_pp_run env c P s k1) k2 := by
  induction k2 with
  | zero => rfl
  | succ k ih =>
    show control_pp_run env c P s (k1 + k + 1) = _
    rw [show k1 + k + 1 = (k1 + k) + 1 from rfl]
    rw [control_pp_run, ih, control_pp_run]
    congr 2
    ring

theorem pp_pairs_add (env : PPInputs) (c P : Nat) (s : PPState) (k1 k2 : Nat) :
    pp_pairs env c P s (k1 + k2) =
      pp_pairs env c P s k1 +
        pp_pairs env (c + k1 * P) P (control_pp_run env c P s k1) k2 := by
  induction k2 with
  | zero => rfl
  | succ k ih =>
    show pp_pairs env c P s ((k1 + k) + 1) = _
    rw [pp_pairs, ih, pp_pairs]
    rw [← control_pp_run_add env c P s k1 k, ← control_pp_run_add env c P s k1 (k + 1)]
    rw [show k1 + (k + 1) = (k1 + k) + 1 from rfl]
    ring

theorem pp_pairs_eq_zero (env : PPInputs) (c P : Nat) (s : PPState) (K : Nat)
    (h : ∀ k, k < K → (control_pp_run env c P s k).mode ≠ PPMode.ppOn ∨
          (control_pp_run env c P s (k + 1)).mode ≠ PPMode.pause) :
    pp_pairs env c P s K = 0 := by
  induction K with
  | zero => rfl
  | succ K ih =>
    rw [pp_pairs]
    rw [ih (fun k hk => h k (Nat.lt_succ_of_lt hk))]
    rcases h K (Nat.lt_succ_self K) with h' | h' <;> simp [h']

theorem pp_step_on_state (env : PPInputs) (now cs m : Nat) :
    control_pp_step env now ⟨PPMode.ppOn, cs, m⟩ =
      if (cs + env.on_ticks) % 2 ^ 32 ≤ now then
        (⟨PPMode.pause, now, m⟩, some PumpState.off)
      else (⟨PPMode.ppOn, cs, m⟩, none) := rfl

theorem pp_step_pause_state (env : PPInputs) (now cs m : Nat) :
    control_pp_step env now ⟨PPMode.pause, cs, m⟩ =
      if 0 < m then
        (if (cs + env.pause_ticks) % 2 ^ 32 ≤ now then
          (⟨PPMode.ppOn, now, m - 1⟩, some PumpState.on)
        else (⟨PPMode.pause, cs, m⟩, none))
      else
        (if (cs + env.pause_ticks) % 2 ^ 32 ≤ now then
          (⟨PPMode.off, cs, m⟩, some PumpState.off)
        else (⟨PPMode.pause, cs, m⟩, none)) := rfl

/-- From an ON state whose `cycle_start` equals the phase base time `c`,
the controller stays in ON until the first tick whose wake time reaches
`cycle_start + on_ticks`, then moves to PAUSE; exactly one ON/PAUSE pair
is completed in that window. -/
theorem pp_on_phase (env : PPInputs) (c P m : Nat) (hP : 1 ≤ P)
    (hD : c + env.on_ticks < 2 ^ 32) :
    ∃ a, 1 ≤ a ∧ a ≤ env.on_ticks + 1 ∧
      (∀ i, i < a →
        control_pp_run env c P ⟨PPMode.ppOn, c, m⟩ i = ⟨PPMode.ppOn, c, m⟩) ∧
      control_pp_run env c P ⟨PPMode.ppOn, c, m⟩ a = ⟨PPMode.pause, c + a * P, m⟩ ∧
      pp_pairs env c P ⟨PPMode.ppOn, c, m⟩ a = 1 := by
  have hmod : (c + env.on_ticks) % 2 ^ 32 = c + env.on_ticks := Nat.mod_eq_of_lt hD
  have hwit : 1 ≤ env.on_ticks + 1 ∧ env.on_ticks ≤ (env.on_ticks + 1) * P := by
    constructor
    · omega
    · calc env.on_ticks ≤ env.on_ticks + 1 := Nat.le_succ _
        _ = (env.on_ticks + 1) * 1 := (Nat.mul_one _).symm
        _ ≤ (env.on_ticks + 1) * P := Nat.mul_le_mul_left _ hP
  have hex : ∃ i, 1 ≤ i ∧ env.on_ticks ≤ i * P := ⟨env.on_ticks + 1, hwit⟩
  classical
  obtain ⟨a, ha, ha_min, hub⟩ :
      ∃ a, (1 ≤ a ∧ env.on_ticks ≤ a * P) ∧
        (∀ i, i < a → ¬(1 ≤ i ∧ env.on_ticks ≤ i * P)) ∧ a ≤ env.on_ticks + 1 :=
    ⟨Nat.find hex, Nat.find_spec hex, fun i hi => Nat.find_min hex hi,
      Nat.find_min' hex hwit⟩
  have hstay : ∀ i, i < a →
      control_pp_run env c P ⟨PPMode.ppOn, c, m⟩ i = ⟨PPMode.ppOn, c, m⟩ := by
    intro i
    induction i with
    | zero => intro _; rfl
    | succ i ih =>
      intro hlt
      have hi : i < a := Nat.lt_of_succ_lt hlt
      rw [control_pp_run, ih hi, pp_step_on_state, hmod]
      have hnot : ¬(env.on_ticks ≤ (i + 1) * P) := by
        have := ha_min (i + 1) hlt
        omega
      rw [if_neg (by omega)]
  obtain ⟨a', rfl⟩ : ∃ a', a = a' + 1 := ⟨a - 1, by omega⟩
  have hend : control_pp_run env c P ⟨PPMode.ppOn, c, m⟩ (a' + 1) =
      ⟨PPMode.pause, c + (a' + 1) * P, m⟩ := by
    rw [control_pp_run, hstay a' (Nat.lt_succ_self a'), pp_step_on_state, hmod]
    rw [if_pos (by have := ha.2; omega)]
  refine ⟨a' + 1, ha.1, hub, hstay, hend, ?_⟩
  rw [pp_pairs]
  rw [pp_pairs_eq_zero]
  · rw [hstay a' (Nat.lt_succ_self a'), hend]
    simp
  · intro k hk
    right
    rw [hstay (k + 1) (by omega)]
    simp

/-- From a PAUSE state whose `cycle_start` equals the phase base time `c`,
the controller stays in PAUSE until the first tick whose wake time reaches
`cycle_start + pause_ticks`; it then moves back to ON and decrements the
counter when `n > 0`, and to OFF when `n = 0`.  No ON/PAUSE pair is
completed in that window. -/
theorem pp_pause_phase (env : PPInputs) (c P m : Nat) (hP : 1 ≤ P)
    (hE : c + env.pause_ticks < 2 ^ 32) :
    ∃ b, 1 ≤ b ∧ b ≤ env.pause_ticks + 1 ∧
      (∀ i, i < b →
        control_pp_run env c P ⟨PPMode.pause, c, m⟩ i = ⟨PPMode.pause, c, m⟩) ∧
      control_pp_run env c P ⟨PPMode.pause, c, m⟩ b =
        (if 0 < m then ⟨PPMode.ppOn, c + b * P, m - 1⟩ else ⟨PPMode.off, c, m⟩) ∧
      pp_pairs env c P ⟨PPMode.pause, c, m⟩ b = 0 := by
  have hmod : (c + env.pause_ticks) % 2 ^ 32 = c + env.pause_ticks := Nat.mod_eq_of_lt hE
  have hwit : 1 ≤ env.pause_ticks + 1 ∧ env.pause_ticks ≤ (env.pause_ticks + 1) * P := by
    constructor
    · omega
    · calc env.pause_ticks ≤ env.pause_ticks + 1 := Nat.le_succ _
        _ = (env.pause_ticks + 1) * 1 := (Nat.mul_one _).symm
        _ ≤ (env.pause_ticks + 1) * P := Nat.mul_le_mul_left _ hP
  have hex : ∃ i, 1 ≤ i ∧ env.pause_ticks ≤ i * P := ⟨env.pause_ticks + 1, hwit⟩
  classical
  obtain ⟨b, hb, hb_min, hub⟩ :
      ∃ b, (1 ≤ b ∧ env.pause_ticks ≤ b * P) ∧
        (∀ i, i < b → ¬(1 ≤ i ∧ env.pause_ticks ≤ i * P)) ∧ b ≤ env.pause_ticks + 1 :=
    ⟨Nat.find hex, Nat.find_spec hex, fun i hi => Nat.find_min hex hi,
      Nat.find_min' hex hwit⟩
  have hstay : ∀ i, i < b →
      control_pp_run env c P ⟨PPMode.pause, c, m⟩ i = ⟨PPMode.pause, c, m⟩ := by
    intro i
    induction i with
    | zero => intro _; rfl
    | succ i ih =>
      intro hlt
      have hi : i < b := Nat.lt_of_succ_lt hlt
      rw [control_pp_run, ih hi, pp_step_pause_state, hmod]
      have hnot : ¬(env.pause_ticks ≤ (i + 1) * P) := by
        have := hb_min (i + 1) hlt
        omega
      by_cases hm : 0 < m
      · rw [if_pos hm, if_neg (by omega)]
      · rw [if_neg hm, if_neg (by omega)]
  obtain ⟨b', rfl⟩ : ∃ b', b = b' + 1 := ⟨b - 1, by omega⟩
  have hend : control_pp_run env c P ⟨PPMode.pause, c, m⟩ (b' + 1) =
      (if 0 < m then ⟨PPMode.ppOn, c + (b' + 1) * P, m - 1⟩ else ⟨PPMode.off, c, m⟩) := by
    rw [control_pp_run, hstay b' (Nat.lt_succ_self b'), pp_step_pause_state, hmod]
    by_cases hm : 0 < m
    · rw [if_pos hm, if_pos (by have := hb.2; omega), if_pos hm]
    · rw [if_neg hm, if_pos (by have := hb.2; omega), if_neg hm]
  refine ⟨b' + 1, hb.1, hub, hstay, hend, ?_⟩
  rw [pp_pairs]
  rw [pp_pairs_eq_zero]
  · rw [hstay b' (Nat.lt_succ_self b')]
    simp
  · intro k hk
    left
    rw [hstay k (by omega)]
    simp

/-- Cycle-accounting induction: started in ON at phase base time `c` with
remaining-cycle counter `m` (and `cycle_start = c`), the PP controller
reaches OFF for the first time after completing exactly `m + 1` ON/PAUSE
pairs, provided the tick counter does not wrap during the run. -/
theorem pp_cycles (env : PPInputs) (P : Nat) (hP : 1 ≤ P) :
    ∀ m c : Nat,
      c + (m + 1) * ((env.on_ticks + env.pause_ticks + 2) * P) +
          env.on_ticks + env.pause_ticks < 2 ^ 32 →
      ∃ K, 1 ≤ K ∧
        (∀ j, j < K →
          (control_pp_run env c P ⟨PPMode.ppOn, c, m⟩ j).mode ≠ PPMode.off) ∧
        (control_pp_run env c P ⟨PPMode.ppOn, c, m⟩ K).mode = PPMode.off ∧
        pp_pairs env c P ⟨PPMode.ppOn, c, m⟩ K = m + 1 := by
  intro m
  induction m with
  | zero =>
    intro c hw
    have hD : c + env.on_ticks < 2 ^ 32 := by omega
    obtain ⟨a, ha1, haub, hstayA, hendA, hpairsA⟩ := pp_on_phase env c P 0 hP hD
    have h1 : a * P ≤ (env.on_ticks + 1) * P := mul_le_mul_right' haub P
    have h3 : (env.on_ticks + 1) * P + (env.pause_ticks + 1) * P
        = (env.on_ticks + env.pause_ticks + 2) * P := by ring
    have hE2 : c + a * P + env.pause_ticks < 2 ^ 32 := by omega
    obtain ⟨b, hb1, hbub, hstayB, hendB, hpairsB⟩ :=
      pp_pause_phase env (c + a * P) P 0 hP hE2
    rw [if_neg (lt_irrefl 0)] at hendB
    have hrunA : ∀ i, control_pp_run env c P ⟨PPMode.ppOn, c, 0⟩ (a + i)
        = control_pp_run env (c + a * P) P ⟨PPMode.pause, c + a * P, 0⟩ i := by
      intro i
      rw [control_pp_run_add, hendA]
    refine ⟨a + b, by omega, ?_, ?_, ?_⟩
    · intro j hj
      by_cases hja : j < a
      · rw [hstayA j hja]
        simp
      · have hjsum : j = a + (j - a) := by omega
        rw [hjsum, hrunA, hstayB _ (by omega)]
        simp
    · rw [hrunA, hendB]
    · rw [pp_pairs_add env c P _ a b, hpairsA, hendA, hpairsB]
  | succ m ih =>
    intro c hw
    have hsplit : (m + 1 + 1) * ((env.on_ticks + env.pause_ticks + 2) * P)
        = (env.on_ticks + env.pause_ticks + 2) * P
          + (m + 1) * ((env.on_ticks + env.pause_ticks + 2) * P) := by ring
    have hD : c + env.on_ticks < 2 ^ 32 := by omega
    obtain ⟨a, ha1, haub, hstayA, hendA, hpairsA⟩ := pp_on_phase env c P (m + 1) hP hD
    have h1 : a * P ≤ (env.on_ticks + 1) * P := mul_le_mul_right' haub P
    have h3 : (env.on_ticks + 1) * P + (env.pause_ticks + 1) * P
        = (env.on_ticks + env.pause_ticks + 2) * P := by ring
    have hE2 : c + a * P + env.pause_ticks < 2 ^ 32 := by omega
    obtain ⟨b, hb1, hbub, hstayB, hendB, hpairsB⟩ :=
      pp_pause_phase env (c + a * P) P (m + 1) hP hE2
    rw [if_pos (Nat.succ_pos m)] at hendB
    have hendB2 : control_pp_run env (c + a * P) P ⟨PPMode.pause, c + a * P, m + 1⟩ b
        = ⟨PPMode.ppOn, c + a * P + b * P, m⟩ := hendB
    have h2 : b * P ≤ (env.pause_ticks + 1) * P := mul_le_mul_right' hbub P
    have hw2 : c + a * P + b * P
        + (m + 1) * ((env.on_ticks + env.pause_ticks + 2) * P)
        + env.on_ticks + env.pause_ticks < 2 ^ 32 := by omega
    obtain ⟨K, hK1, hKno, hKoff, hKpairs⟩ := ih (c + a * P + b * P) hw2
    have hrunA : ∀ i, control_pp_run env c P ⟨PPMode.ppOn, c, m + 1⟩ (a + i)
        = control_pp_run env (c + a * P) P ⟨PPMode.pause, c + a * P, m + 1⟩ i := by
      intro i
      rw [control_pp_run_add, hendA]
    have hrunB : ∀ i,
        control_pp_run env (c + a * P) P ⟨PPMode.pause, c + a * P, m + 1⟩ (b + i)
          = control_pp_run env (c + a * P + b * P) P
              ⟨PPMode.ppOn, c + a * P + b * P, m⟩ i := by
      intro i
      rw [control_pp_run_add, hendB2]
    refine ⟨a + (b + K), by omega, ?_, ?_, ?_⟩
    · intro j hj
      by_cases hja : j < a
      · rw [hstayA j hja]
        simp
      · by_cases hjb : j < a + b
        · have hjsum : j = a + (j - a) := by omega
          rw [hjsum, hrunA, hstayB _ (by omega)]
          simp
        · have hjsum : j = a + (b + (j - a - b)) := by omega
          rw [hjsum, hrunA, hrunB]
          exact hKno _ (by omega)
    · rw [hrunA, hrunB]
      exact hKoff
    · rw [pp_pairs_add env c P _ a (b + K), hpairsA, hendA,
        pp_pairs_add env (c + a * P) P _ b K, hpairsB, hendB2, hKpairs]
      omega

/-- C2 (amended): PP cycle accounting: once the PP controller takes the
OFF→ON transition with configured cycle count `N` in `[1, 2^32)`, it
performs exactly `N` ON/PAUSE pairs and then returns to OFF (first
reaching OFF exactly after the `N`-th pair), provided the tick counter
does not wrap during the run.  The claim's `N = 0` case is false: the
`uint32_t` decrement `--n` of the freshly loaded count underflows, see
`pp_cycle_accounting_zero_counterexample`. -/
theorem pp_cycle_accounting (env : PPInputs) (s0 : PPState) (c P N : Nat)
    (hmode : s0.mode = PPMode.off)
    (hcp : env.cp_state = PumpState.on) (hflow : env.flow_rate ≤ env.flow_threshold)
    (hcc : env.cycle_count = N) (hN1 : 1 ≤ N) (hN2 : N < 2 ^ 32) (hP : 1 ≤ P)
    (hwrap : c + N * ((env.on_ticks + env.pause_ticks + 2) * P) +
        env.on_ticks + env.pause_ticks < 2 ^ 32) :
    (control_pp_step env c s0).1.mode = PPMode.ppOn ∧
    ∃ K, 1 ≤ K ∧
      (∀ j, j < K →
        (control_pp_run env c P (control_pp_step env c s0).1 j).mode ≠ PPMode.off) ∧
      (control_pp_run env c P (control_pp_step env c s0).1 K).mode = PPMode.off ∧
      pp_pairs env c P (control_pp_step env c s0).1 K = N := by
  have hstep : control_pp_step env c s0 =
      (⟨PPMode.ppOn, c, (env.cycle_count + (2 ^ 32 - 1)) % 2 ^ 32⟩, some PumpState.on) := by
    unfold control_pp_step
    rw [hmode]
    rw [if_pos ⟨hcp, hflow⟩]
  have hmod : (env.cycle_count + (2 ^ 32 - 1)) % 2 ^ 32 = N - 1 := by
    rw [hcc]
    omega
  have hs1 : (control_pp_step env c s0).1 = ⟨PPMode.ppOn, c, N - 1⟩ := by
    rw [hstep, hmod]
  rw [hs1]
  have hNsub : N - 1 + 1 = N := by omega
  have hw : c + (N - 1 + 1) * ((env.on_ticks + env.pause_ticks + 2) * P) +
      env.on_ticks + env.pause_ticks < 2 ^ 32 := by
    rw [hNsub]
    exact hwrap
  obtain ⟨K, hK1, hKno, hKoff, hKpairs⟩ := pp_cycles env P hP (N - 1) c hw
  exact ⟨rfl, K, hK1, hKno, hKoff, by rw [hKpairs, hNsub]⟩

/-- Witness for `pp_cycle_accounting` at the spec's `N = 3`:
CP ON, flow 2.0 ≤ threshold 5.0, cycle count 3, one-tick ON and PAUSE
durations, poll period 1 tick, starting tick count 0. -/
theorem pp_cycle_accounting_witness :
    (control_pp_step ⟨2, PumpState.on, 5, 3, 1, 1⟩ 0 ⟨PPMode.off, 0, 0⟩).1.mode
        = PPMode.ppOn ∧
    ∃ K, 1 ≤ K ∧
      (∀ j, j < K →
        (control_pp_run ⟨2, PumpState.on, 5, 3, 1, 1⟩ 0 1
          (control_pp_step ⟨2, PumpState.on, 5, 3, 1, 1⟩ 0 ⟨PPMode.off, 0, 0⟩).1 j).mode
          ≠ PPMode.off) ∧
      (control_pp_run ⟨2, PumpState.on, 5, 3, 1, 1⟩ 0 1
        (control_pp_step ⟨2, PumpState.on, 5, 3, 1, 1⟩ 0 ⟨PPMode.off, 0, 0⟩).1 K).mode
        = PPMode.off ∧
      pp_pairs ⟨2, PumpState.on, 5, 3, 1, 1⟩ 0 1
        (control_pp_step ⟨2, PumpState.on, 5, 3, 1, 1⟩ 0 ⟨PPMode.off, 0, 0⟩).1 K = 3 :=
  pp_cycle_accounting ⟨2, PumpState.on, 5, 3, 1, 1⟩ ⟨PPMode.off, 0, 0⟩ 0 1 3
    rfl rfl (by norm_num) rfl (by norm_num) (by norm_num) (by norm_num) (by norm_num)

/-- C2 counterexample for the claim's `N = 0` case: with cycle count 0
(CP ON, flow 2.0 ≤ threshold 5.0, one-tick durations, period 1, start tick 0)
the controller that has just taken the OFF→ON transition never first reaches
OFF having completed 0 ON/PAUSE pairs: the `uint32_t` counter underflows to
`2^32 - 1` and the machine keeps cycling (it is back in ON at tick 2 after
completing one pair). -/
theorem pp_cycle_accounting_zero_counterexample :
    ¬ ∃ K,
      (∀ j, j < K →
        (control_pp_run ⟨2, PumpState.on, 5, 0, 1, 1⟩ 0 1
          (control_pp_step ⟨2, PumpState.on, 5, 0, 1, 1⟩ 0 ⟨PPMode.off, 0, 0⟩).1 j).mode
          ≠ PPMode.off) ∧
      (control_pp_run ⟨2, PumpState.on, 5, 0, 1, 1⟩ 0 1
        (control_pp_step ⟨2, PumpState.on, 5, 0, 1, 1⟩ 0 ⟨PPMode.off, 0, 0⟩).1 K).mode
        = PPMode.off ∧
      pp_pairs ⟨2, PumpState.on, 5, 0, 1, 1⟩ 0 1
        (control_pp_step ⟨2, PumpState.on, 5, 0, 1, 1⟩ 0 ⟨PPMode.off, 0, 0⟩).1 K = 0 := by
  rintro ⟨K, hno, hoff, hpairs⟩
  by_cases hK : K < 3
  · interval_cases K
    · exact absurd hoff (by decide)
    · exact absurd hoff (by decide)
    · exact absurd hoff (by decide)
  · have hKsum : K = 2 + (K - 2) := by omega
    rw [hKsum, pp_pairs_add] at hpairs
    have h2 : pp_pairs ⟨2, PumpState.on, 5, 0, 1, 1⟩ 0 1
        (control_pp_step ⟨2, PumpState.on, 5, 0, 1, 1⟩ 0 ⟨PPMode.off, 0, 0⟩).1 2 = 1 := by
      decide
    omega

/-- Outcome of one wrapped display primitive (`src/main/display.c`
lines 232-272): how many times the underlying `i2c_lcd1602_*` operation was
attempted, how many `_display_reset` re-initialisations were forced (one
after each failed attempt), and whether the final `esp_err_t` is `ESP_OK`. -/
structure RetryResult where
  attempts : Nat
  resets : Nat
  ok : Bool
deriving DecidableEq, Repr

/-- The retry loop shared by `_clear`, `_move_cursor` and `_write_string`:
`while (count < 10 && (err = op()) != ESP_OK) { ++count; delay; reset; }`.
`op i` tells whether the `i`-th call of the underlying hardware operation
succeeds; `count` is the C loop counter. -/
def display_retry (op : Nat → Bool) (count : Nat) : RetryResult :=
  if h : count < 10 then
    if op count then ⟨1, 0, true⟩
    else
      let r := display_retry op (count + 1)
      ⟨r.attempts + 1, r.resets + 1, r.ok⟩
  else ⟨0, 0, false⟩
termination_by 10 - count
decreasing_by omega

/-- Wrapper `_clear` (`display.c` lines 232-244): retry-wrapped `i2c_lcd1602_clear`. -/
def _clear (hw_op : Nat → Bool) : RetryResult :=
  display_retry hw_op 0

/-- Wrapper `_move_cursor` (`display.c` lines 246-258): retry-wrapped
`i2c_lcd1602_move_cursor`. -/
def _move_cursor (hw_op : Nat → Bool) (col row : Nat) : RetryResult :=
  display_retry hw_op 0

/-- Wrapper `_write_string` (`display.c` lines 260-272): retry-wrapped
`i2c_lcd1602_write_string`. -/
def _write_string (hw_op : Nat → Bool) (s : String) : RetryResult :=
  display_retry hw_op 0

theorem display_retry_all_fail (op : Nat → Bool) (hop : ∀ i, op i = false) :
    ∀ n c, 10 - c = n → c ≤ 10 → display_retry op c = ⟨n, n, false⟩ := by
  intro n
  induction n with
  | zero =>
    intro c h1 h2
    have hc : c = 10 := by omega
    subst hc
    rw [display_retry]
    simp
  | succ n ih =>
    intro c h1 h2
    have hc : c < 10 := by omega
    rw [display_retry, dif_pos hc, hop c, ih (c + 1) (by omega) (by omega)]
    simp

/-- C3: Bounded retry of display writes: for each wrapped primitive display
operation (clear, move cursor, write string), if the underlying hardware
operation always fails then the wrapper performs exactly 10 attempts, with a
device reset after each failure, terminates (it is a total function), and
returns the failure to the caller. -/
theorem display_write_bounded_retry (hwc hwm hww : Nat → Bool)
    (col row : Nat) (s : String)
    (hc : ∀ i, hwc i = false) (hm : ∀ i, hwm i = false) (hw : ∀ i, hww i = false) :
    _clear hwc = ⟨10, 10, false⟩ ∧
    _move_cursor hwm col row = ⟨10, 10, false⟩ ∧
    _write_string hww s = ⟨10, 10, false⟩ :=
  ⟨display_retry_all_fail hwc hc 10 0 rfl (by omega),
    display_retry_all_fail hwm hm 10 0 rfl (by omega),
    display_retry_all_fail hww hw 10 0 rfl (by omega)⟩

/-- Witness for `display_write_bounded_retry`: the constantly failing
hardware operation. -/
theorem display_write_bounded_retry_witness :
    _clear (fun _ => false) = ⟨10, 10, false⟩ ∧
    _move_cursor (fun _ => false) 0 0 = ⟨10, 10, false⟩ ∧
    _write_string (fun _ => false) "" = ⟨10, 10, false⟩ :=
  display_write_bounded_retry (fun _ => false) (fun _ => false) (fun _ => false)
    0 0 "" (fun _ => rfl) (fun _ => rfl) (fun _ => rfl)

/-- Modelled from the spec: `display.h` (not under `src/`) declares the page
identifier enumeration `display_page_id_t`.  The sentinel
`DISPLAY_PAGE_IGNORE` (spec: "a sentinel means ignore this input on this
page") is negative so that the commit guard `new_page >= 0` rejects it; the
page identifiers are consecutive from 0 in Page Registry order, forced by the
dispatch check `page_specs[current_page].id == current_page` and the static
assertion `sizeof(page_specs)/sizeof(page_specs[0]) == DISPLAY_PAGE_LAST`. -/
def DISPLAY_PAGE_IGNORE : Int := -1

/-- Modelled from the spec: `display_page_id_t` value, position 0 of the Page Registry. -/
def DISPLAY_PAGE_BLANK : Int := 0

/-- Modelled from the spec: `display_page_id_t` value, position 1 of the Page Registry (the home page, `INITIAL_PAGE`). -/
def DISPLAY_PAGE_MAIN : Int := 1

/-- Modelled from the spec: `display_page_id_t` value, position 2 of the Page Registry. -/
def DISPLAY_PAGE_SENSORS_TEMP : Int := 2

/-- Modelled from the spec: `display_page_id_t` value, position 3 of the Page Registry. -/
def DISPLAY_PAGE_SENSORS_TEMP_2 : Int := 3

/-- Modelled from the spec: `display_page_id_t` value, position 4 of the Page Registry. -/
def DISPLAY_PAGE_SENSORS_LIGHT : Int := 4

/-- Modelled from the spec: `display_page_id_t` value, position 5 of the Page Registry. -/
def DISPLAY_PAGE_SENSORS_FLOW : Int := 5

/-- Modelled from the spec: `display_page_id_t` value, position 6 of the Page Registry. -/
def DISPLAY_PAGE_POWER : Int := 6

/-- Modelled from the spec: `display_page_id_t` value, position 7 of the Page Registry. -/
def DISPLAY_PAGE_SWITCHES : Int := 7

/-- Modelled from the spec: `display_page_id_t` value, position 8 of the Page Registry. -/
def DISPLAY_PAGE_PUMP_STATUS : Int := 8

/-- Modelled from the spec: `display_page_id_t` value, position 9 of the Page Registry. -/
def DISPLAY_PAGE_CP_CONTROL : Int := 9

/-- Modelled from the spec: `display_page_id_t` value, position 10 of the Page Registry. -/
def DISPLAY_PAGE_PP_CONTROL : Int := 10

/-- Modelled from the spec: `display_page_id_t` value, position 11 of the Page Registry. -/
def DISPLAY_PAGE_ALARM : Int := 11

/-- Modelled from the spec: `display_page_id_t` value, position 12 of the Page Registry. -/
def DISPLAY_PAGE_WIFI_STATUS : Int := 12

/-- Modelled from the spec: `display_page_id_t` value, position 13 of the Page Registry. -/
def DISPLAY_PAGE_MQTT_STATUS : Int := 13

/-- Modelled from the spec: `display_page_id_t` value, position 14 of the Page Registry. -/
def DISPLAY_PAGE_RESOURCE_STATUS : Int := 14

/-- Modelled from the spec: `display_page_id_t` value, position 15 of the Page Registry. -/
def DISPLAY_PAGE_AVR_STATUS : Int := 15

/-- Modelled from the spec: `DISPLAY_PAGE_LAST`, one past the last page
identifier; the Page Registry has exactly this many entries. -/
def DISPLAY_PAGE_LAST : Int := 16

/-- One entry of the Page Registry `page_specs` (`src/main/display.c`
lines 109-127): the page identifier and whether a render handler is bound
(every entry of the real table has one; the `state` cell is irrelevant to
the claims). -/
structure PageSpec where
  id : Int
  hasHandler : Bool
deriving DecidableEq, Repr

/-- The Page Registry `page_specs` of `src/main/display.c` lines 109-127. -/
def page_specs : List PageSpec :=
  [⟨DISPLAY_PAGE_BLANK, true⟩,
   ⟨DISPLAY_PAGE_MAIN, true⟩,
   ⟨DISPLAY_PAGE_SENSORS_TEMP, true⟩,
   ⟨DISPLAY_PAGE_SENSORS_TEMP_2, true⟩,
   ⟨DISPLAY_PAGE_SENSORS_LIGHT, true⟩,
   ⟨DISPLAY_PAGE_SENSORS_FLOW, true⟩,
   ⟨DISPLAY_PAGE_POWER, true⟩,
   ⟨DISPLAY_PAGE_SWITCHES, true⟩,
   ⟨DISPLAY_PAGE_PUMP_STATUS, true⟩,
   ⟨DISPLAY_PAGE_CP_CONTROL, true⟩,
   ⟨DISPLAY_PAGE_PP_CONTROL, true⟩,
   ⟨DISPLAY_PAGE_ALARM, true⟩,
   ⟨DISPLAY_PAGE_WIFI_STATUS, true⟩,
   ⟨DISPLAY_PAGE_MQTT_STATUS, true⟩,
   ⟨DISPLAY_PAGE_RESOURCE_STATUS, true⟩,
   ⟨DISPLAY_PAGE_AVR_STATUS, true⟩]

/-- One row of the navigation table `transitions` (`transition_t`,
`src/main/display.c` lines 130-137). -/
structure Transition where
  current : Int
  on_counter_clockwise : Int
  on_clockwise : Int
  on_short : Int
  on_long : Int
deriving DecidableEq, Repr

/-- The page transition table `transitions` of `src/main/display.c`
lines 139-157 (columns: current, counter-clockwise, clockwise, short, long). -/
def transitions : List Transition :=
  [⟨DISPLAY_PAGE_BLANK, DISPLAY_PAGE_MAIN, DISPLAY_PAGE_MAIN,
      DISPLAY_PAGE_IGNORE, DISPLAY_PAGE_IGNORE⟩,
   ⟨DISPLAY_PAGE_MAIN, DISPLAY_PAGE_AVR_STATUS, DISPLAY_PAGE_SENSORS_TEMP,
      DISPLAY_PAGE_IGNORE, DISPLAY_PAGE_IGNORE⟩,
   ⟨DISPLAY_PAGE_SENSORS_TEMP, DISPLAY_PAGE_MAIN, DISPLAY_PAGE_SENSORS_LIGHT,
      DISPLAY_PAGE_SENSORS_TEMP_2, DISPLAY_PAGE_IGNORE⟩,
   ⟨DISPLAY_PAGE_SENSORS_TEMP_2, DISPLAY_PAGE_MAIN, DISPLAY_PAGE_SENSORS_LIGHT,
      DISPLAY_PAGE_SENSORS_TEMP, DISPLAY_PAGE_IGNORE⟩,
   ⟨DISPLAY_PAGE_SENSORS_LIGHT, DISPLAY_PAGE_SENSORS_TEMP, DISPLAY_PAGE_SENSORS_FLOW,
      DISPLAY_PAGE_IGNORE, DISPLAY_PAGE_IGNORE⟩,
   ⟨DISPLAY_PAGE_SENSORS_FLOW, DISPLAY_PAGE_SENSORS_LIGHT, DISPLAY_PAGE_POWER,
      DISPLAY_PAGE_IGNORE, DISPLAY_PAGE_IGNORE⟩,
   ⟨DISPLAY_PAGE_POWER, DISPLAY_PAGE_SENSORS_FLOW, DISPLAY_PAGE_SWITCHES,
      DISPLAY_PAGE_IGNORE, DISPLAY_PAGE_IGNORE⟩,
   ⟨DISPLAY_PAGE_SWITCHES, DISPLAY_PAGE_SENSORS_FLOW, DISPLAY_PAGE_PUMP_STATUS,
      DISPLAY_PAGE_IGNORE, DISPLAY_PAGE_IGNORE⟩,
   ⟨DISPLAY_PAGE_PUMP_STATUS, DISPLAY_PAGE_SWITCHES, DISPLAY_PAGE_CP_CONTROL,
      DISPLAY_PAGE_IGNORE, DISPLAY_PAGE_IGNORE⟩,
   ⟨DISPLAY_PAGE_CP_CONTROL, DISPLAY_PAGE_PUMP_STATUS, DISPLAY_PAGE_PP_CONTROL,
      DISPLAY_PAGE_IGNORE, DISPLAY_PAGE_IGNORE⟩,
   ⟨DISPLAY_PAGE_PP_CONTROL, DISPLAY_PAGE_CP_CONTROL, DISPLAY_PAGE_ALARM,
      DISPLAY_PAGE_IGNORE, DISPLAY_PAGE_IGNORE⟩,
   ⟨DISPLAY_PAGE_ALARM, DISPLAY_PAGE_PP_CONTROL, DISPLAY_PAGE_WIFI_STATUS,
      DISPLAY_PAGE_IGNORE, DISPLAY_PAGE_IGNORE⟩,
   ⟨DISPLAY_PAGE_WIFI_STATUS, DISPLAY_PAGE_ALARM, DISPLAY_PAGE_MQTT_STATUS,
      DISPLAY_PAGE_IGNORE, DISPLAY_PAGE_IGNORE⟩,
   ⟨DISPLAY_PAGE_MQTT_STATUS, DISPLAY_PAGE_WIFI_STATUS, DISPLAY_PAGE_RESOURCE_STATUS,
      DISPLAY_PAGE_IGNORE, DISPLAY_PAGE_IGNORE⟩,
   ⟨DISPLAY_PAGE_RESOURCE_STATUS, DISPLAY_PAGE_MQTT_STATUS, DISPLAY_PAGE_AVR_STATUS,
      DISPLAY_PAGE_IGNORE, DISPLAY_PAGE_IGNORE⟩,
   ⟨DISPLAY_PAGE_AVR_STATUS, DISPLAY_PAGE_RESOURCE_STATUS, DISPLAY_PAGE_MAIN,
      DISPLAY_PAGE_IGNORE, DISPLAY_PAGE_IGNORE⟩]

/-- Modelled from the spec: the four input kinds delivered through the input
queue (`ROTARY_ENCODER_EVENT_CLOCKWISE`, `ROTARY_ENCODER_EVENT_COUNTER_CLOCKWISE`,
`BUTTON_EVENT_SHORT`, `BUTTON_EVENT_LONG`; their numeric codes live in
`rotary_encoder.h` / `button.h`, which are not under `src/`), plus a
constructor for any other code, which reaches the `default` branch of
`_handle_transition`. -/
inductive InputEvent where
  | clockwise
  | counterClockwise
  | shortPress
  | longPress
  | invalid
deriving DecidableEq, Repr

/-- The navigation field of a transition-table row selected by an input
kind (the `switch (input)` of `_handle_transition`); an invalid input keeps
the current page, as the `default` branch does. -/
def Transition.next (t : Transition) : InputEvent → Int
  | InputEvent.clockwise => t.on_clockwise
  | InputEvent.counterClockwise => t.on_counter_clockwise
  | InputEvent.shortPress => t.on_short
  | InputEvent.longPress => t.on_long
  | InputEvent.invalid => t.current

/-- Navigation lookup `_handle_transition` (`src/main/display.c`
lines 854-880): look up the
next page for an input on the current page; an out-of-range current page
yields `DISPLAY_PAGE_BLANK` (the initial value of `new_page`), an invalid
input yields the current page. -/
def _handle_transition (input : InputEvent) (current_page : Int) : Int :=
  if 0 ≤ current_page ∧ current_page < DISPLAY_PAGE_LAST then
    let t := transitions.getD current_page.toNat ⟨0, 0, 0, 0, 0⟩
    match input with
    | InputEvent.clockwise => t.on_clockwise
    | InputEvent.counterClockwise => t.on_counter_clockwise
    | InputEvent.shortPress => t.on_short
    | InputEvent.longPress => t.on_long
    | InputEvent.invalid => current_page
  else DISPLAY_PAGE_BLANK

/-- C5: Transition table totality: the registry and the transition table
both have `DISPLAY_PAGE_LAST` entries; every page identifier in the Page
Registry has exactly one transition entry; and for every registry page and
each of the four input kinds the lookup yields a defined next page — either
the `DISPLAY_PAGE_IGNORE` sentinel (stay on the current page) or a page
identifier that is itself in the registry — and `_handle_transition` agrees
with that entry. -/
theorem transition_table_total :
    page_specs.length = 16 ∧ transitions.length = 16 ∧
    ∀ s, s ∈ page_specs →
      (transitions.filter (fun t => t.current = s.id)).length = 1 ∧
      ∀ input, input ∈ [InputEvent.clockwise, InputEvent.counterClockwise,
          InputEvent.shortPress, InputEvent.longPress] →
        ∃ t, transitions.find? (fun t => t.current == s.id) = some t ∧
          _handle_transition input s.id = t.next input ∧
          (t.next input = DISPLAY_PAGE_IGNORE ∨
            ∃ s2, s2 ∈ page_specs ∧ s2.id = t.next input) := by
  decide

/-- Witness for `transition_table_total`: the home page `DISPLAY_PAGE_MAIN`
with a clockwise rotation moves to the temperature page. -/
theorem transition_table_total_witness :
    ∃ t, transitions.find? (fun t => t.current == (1 : Int)) = some t ∧
      _handle_transition InputEvent.clockwise 1 = t.next InputEvent.clockwise ∧
      (t.next InputEvent.clockwise = DISPLAY_PAGE_IGNORE ∨
        ∃ s2, s2 ∈ page_specs ∧ s2.id = t.next InputEvent.clockwise) :=
  (transition_table_total.2.2 ⟨DISPLAY_PAGE_MAIN, true⟩ (by decide)).2
    InputEvent.clockwise (by decide)

/-- The in-memory 4-row page buffer (`page_buffer_t`,
`src/main/display.c` lines 72-75).  Each row is the C string contents of
`buffer->row[i]` up to its terminating NUL (handler-written rows contain no
embedded NUL). -/
structure PageBuffer where
  row0 : List Char
  row1 : List Char
  row2 : List Char
  row3 : List Char
deriving DecidableEq, Repr

/-- Blank page handler `_handle_page_blank` (`src/main/display.c`
lines 275-281): writes
`'\0'` at position 0 of every row, i.e. makes every row the empty
C string. -/
def _handle_page_blank (buffer : PageBuffer) : PageBuffer :=
  ⟨[], [], [], []⟩

/-- Page dispatch `dispatch_to_handler` (`src/main/display.c`
lines 823-852).  `render`
abstracts the bound page-handler functions (their content is external
sensor/system state); the three validation failures — out-of-range page,
position/identifier mismatch, missing handler — only log, so the buffer is
returned unchanged on those paths (the local reassignment
`current_page = DISPLAY_PAGE_BLANK` in the C code is never read again). -/
def dispatch_to_handler (render : Nat → PageBuffer → PageBuffer)
    (current_page : Int) (buffer : PageBuffer) : PageBuffer :=
  if 0 ≤ current_page ∧ current_page < DISPLAY_PAGE_LAST then
    match page_specs.get? current_page.toNat with
    | some spec =>
      if spec.id = current_page then
        if spec.hasHandler then render current_page.toNat buffer
        else buffer
      else buffer
    | none => buffer
  else buffer

/-- The three `ESP_LOGE` failure conditions of `dispatch_to_handler`:
page out of range, registry entry mismatched against its position, or no
handler bound. -/
def dispatch_fails (current_page : Int) : Bool :=
  if 0 ≤ current_page ∧ current_page < DISPLAY_PAGE_LAST then
    match page_specs.get? current_page.toNat with
    | some spec => !(spec.id == current_page) || !spec.hasHandler
    | none => true
  else true

theorem dispatch_fails_leaves_buffer (render : Nat → PageBuffer → PageBuffer)
    (p : Int) (b : PageBuffer) (herr : dispatch_fails p = true) :
    dispatch_to_handler render p b = b := by
  unfold dispatch_to_handler
  unfold dispatch_fails at herr
  by_cases hr : 0 ≤ p ∧ p < DISPLAY_PAGE_LAST
  · rw [if_pos hr] at herr ⊢
    cases hspec : page_specs.get? p.toNat with
    | none => rfl
    | some spec =>
      rw [hspec] at herr
      have herr2 : (!(spec.id == p) || !spec.hasHandler) = true := herr
      show (if spec.id = p then
          if spec.hasHandler = true then render p.toNat b else b
        else b) = b
      by_cases hid : spec.id = p
      · by_cases hh : spec.hasHandler = true
        · exfalso
          simp [hid, hh] at herr2
        · rw [if_pos hid, if_neg hh]
      · rw [if_neg hid]
  · rw [if_neg hr] at herr ⊢

/-- C7: Dispatch failure substitution: for every page identifier that is
out of range, mismatched against its position-indexed registry entry, or
lacking a handler, page dispatch does not fail the process (it is a total
function) and leaves the row buffer — which the display loop clears before
dispatching — exactly equal to what the blank page's render function
produces. -/
theorem dispatch_failure_substitutes_blank (render : Nat → PageBuffer → PageBuffer)
    (p : Int) (b : PageBuffer) (herr : dispatch_fails p = true)
    (hcleared : b = ⟨[], [], [], []⟩) :
    dispatch_to_handler render p b = _handle_page_blank b := by
  rw [dispatch_fails_leaves_buffer render p b herr, hcleared, _handle_page_blank]

/-- Witness for `dispatch_failure_substitutes_blank`: page 16
(`DISPLAY_PAGE_LAST`, one past the registry) is out of range, and dispatch
with any handler family leaves the cleared buffer blank. -/
theorem dispatch_failure_substitutes_blank_witness :
    dispatch_to_handler (fun _ b => b) 16 ⟨[], [], [], []⟩ =
      _handle_page_blank ⟨[], [], [], []⟩ :=
  dispatch_failure_substitutes_blank (fun _ b => b) 16 ⟨[], [], [], []⟩
    (by decide) rfl

/-- Visible width `LCD_NUM_VISIBLE_COLUMNS` / `DISPLAY_WIDTH` (`src/main/display.c`
lines 60-62): the fixed visible width of the character display. -/
def LCD_NUM_VISIBLE_COLUMNS : Nat := 20

/-- The per-row body of `_extend_page_buffer_rows` (`src/main/display.c`
lines 895-906): space-fill from `strlen(row)` up to column 19, then write
`'\0'` at column 20 (which truncates the C string at the visible width). -/
def extend_row (r : List Char) : List Char :=
  (r ++ List.replicate (LCD_NUM_VISIBLE_COLUMNS - r.length) ' ').take
    LCD_NUM_VISIBLE_COLUMNS

/-- Padding step `_extend_page_buffer_rows` (`src/main/display.c` lines 895-906). -/
def _extend_page_buffer_rows (buffer : PageBuffer) : PageBuffer :=
  ⟨extend_row buffer.row0, extend_row buffer.row1,
   extend_row buffer.row2, extend_row buffer.row3⟩

theorem extend_row_of_le (r : List Char) (h : r.length ≤ 20) :
    extend_row r = r ++ List.replicate (20 - r.length) ' ' ∧
    (extend_row r).length = 20 := by
  have hlen : (r ++ List.replicate (20 - r.length) ' ').length = 20 := by
    rw [List.length_append, List.length_replicate]
    omega
  constructor
  · unfold extend_row LCD_NUM_VISIBLE_COLUMNS
    exact List.take_of_length_le (le_of_eq hlen)
  · unfold extend_row LCD_NUM_VISIBLE_COLUMNS
    rw [List.take_of_length_le (le_of_eq hlen), hlen]

/-- C8: Row padding: for every page buffer whose rendered rows do not
exceed the visible column count (20), after `_extend_page_buffer_rows`
every one of the 4 rows is exactly 20 characters: the rendered content
space-filled on the right (the trailing `'\0'` terminates each row at the
visible width). -/
theorem row_padding (b : PageBuffer)
    (h0 : b.row0.length ≤ 20) (h1 : b.row1.length ≤ 20)
    (h2 : b.row2.length ≤ 20) (h3 : b.row3.length ≤ 20) :
    ((_extend_page_buffer_rows b).row0 = b.row0 ++ List.replicate (20 - b.row0.length) ' ' ∧
      (_extend_page_buffer_rows b).row0.length = 20) ∧
    ((_extend_page_buffer_rows b).row1 = b.row1 ++ List.replicate (20 - b.row1.length) ' ' ∧
      (_extend_page_buffer_rows b).row1.length = 20) ∧
    ((_extend_page_buffer_rows b).row2 = b.row2 ++ List.replicate (20 - b.row2.length) ' ' ∧
      (_extend_page_buffer_rows b).row2.length = 20) ∧
    ((_extend_page_buffer_rows b).row3 = b.row3 ++ List.replicate (20 - b.row3.length) ' ' ∧
      (_extend_page_buffer_rows b).row3.length = 20) :=
  ⟨extend_row_of_le b.row0 h0, extend_row_of_le b.row1 h1,
    extend_row_of_le b.row2 h2, extend_row_of_le b.row3 h3⟩

/-- Witness for `row_padding`: a buffer with rows of lengths 0, 1, 5 and 20. -/
theorem row_padding_witness :
    ((_extend_page_buffer_rows ⟨[], ['A'], ['H', 'e', 'l', 'l', 'o'],
        List.replicate 20 'x'⟩).row0 =
      [] ++ List.replicate (20 - ([] : List Char).length) ' ' ∧
      (_extend_page_buffer_rows ⟨[], ['A'], ['H', 'e', 'l', 'l', 'o'],
        List.replicate 20 'x'⟩).row0.length = 20) ∧
    ((_extend_page_buffer_rows ⟨[], ['A'], ['H', 'e', 'l', 'l', 'o'],
        List.replicate 20 'x'⟩).row1 =
      ['A'] ++ List.replicate (20 - ['A'].length) ' ' ∧
      (_extend_page_buffer_rows ⟨[], ['A'], ['H', 'e', 'l', 'l', 'o'],
        List.replicate 20 'x'⟩).row1.length = 20) ∧
    ((_extend_page_buffer_rows ⟨[], ['A'], ['H', 'e', 'l', 'l', 'o'],
        List.replicate 20 'x'⟩).row2 =
      ['H', 'e', 'l', 'l', 'o'] ++
        List.replicate (20 - ['H', 'e', 'l', 'l', 'o'].length) ' ' ∧
      (_extend_page_buffer_rows ⟨[], ['A'], ['H', 'e', 'l', 'l', 'o'],
        List.replicate 20 'x'⟩).row2.length = 20) ∧
    ((_extend_page_buffer_rows ⟨[], ['A'], ['H', 'e', 'l', 'l', 'o'],
        List.replicate 20 'x'⟩).row3 =
      List.replicate 20 'x' ++
        List.replicate (20 - (List.replicate 20 'x').length) ' ' ∧
      (_extend_page_buffer_rows ⟨[], ['A'], ['H', 'e', 'l', 'l', 'o'],
        List.replicate 20 'x'⟩).row3.length = 20) :=
  row_padding ⟨[], ['A'], ['H', 'e', 'l', 'l', 'o'], List.replicate 20 'x'⟩
    (by decide) (by decide) (by decide) (by decide)

/-- Starting page `INITIAL_PAGE` (`src/main/display.c` line 70): the display loop's
starting page, the home page `DISPLAY_PAGE_MAIN`. -/
def INITIAL_PAGE : Int := DISPLAY_PAGE_MAIN

/-- The page-transition commit of one `display_task` loop iteration
(`src/main/display.c` lines 988-1002): look up the next page with
`_handle_transition` and commit it only if it differs from the current page
and passes the range check `new_page >= 0 && new_page < DISPLAY_PAGE_LAST`;
otherwise keep the current page. -/
def display_page_commit (input : InputEvent) (current_page : Int) : Int :=
  let new_page := _handle_transition input current_page
  if new_page ≠ current_page ∧ 0 ≤ new_page ∧ new_page < DISPLAY_PAGE_LAST then
    new_page
  else current_page

theorem display_page_commit_in_range (input : InputEvent) (c : Int)
    (h : 0 ≤ c ∧ c < DISPLAY_PAGE_LAST) :
    0 ≤ display_page_commit input c ∧ display_page_commit input c < DISPLAY_PAGE_LAST := by
  unfold display_page_commit
  by_cases hc : _handle_transition input c ≠ c ∧
      0 ≤ _handle_transition input c ∧ _handle_transition input c < DISPLAY_PAGE_LAST
  · rw [if_pos hc]
    exact ⟨hc.2.1, hc.2.2⟩
  · rw [if_neg hc]
    exact h

/-- C9: Current-page range invariant: the display loop's current-page
variable starts at the home page (`INITIAL_PAGE = DISPLAY_PAGE_MAIN`, a
valid registry index) and after any sequence of input events, every
committed transition being guarded by the range check, it is still a valid
registry index in `[0, DISPLAY_PAGE_LAST)` — so dispatch inside the loop is
never invoked with an out-of-range page. -/
theorem current_page_range_invariant (inputs : List InputEvent) :
    INITIAL_PAGE = DISPLAY_PAGE_MAIN ∧
    0 ≤ inputs.foldl (fun c input => display_page_commit input c) INITIAL_PAGE ∧
    inputs.foldl (fun c input => display_page_commit input c) INITIAL_PAGE
      < DISPLAY_PAGE_LAST := by
  refine ⟨rfl, ?_⟩
  have hstep : ∀ (l : List InputEvent) (c : Int),
      0 ≤ c ∧ c < DISPLAY_PAGE_LAST →
      0 ≤ l.foldl (fun c input => display_page_commit input c) c ∧
      l.foldl (fun c input => display_page_commit input c) c < DISPLAY_PAGE_LAST := by
    intro l
    induction l with
    | nil => intro c hc; exact hc
    | cons i t ih =>
      intro c hc
      exact ih (display_page_commit i c) (display_page_commit_in_range i c hc)
  exact hstep inputs INITIAL_PAGE (by decide)

/-- Helper `_split_time` (`src/main/display.c` lines 283-289): split a `uint32_t`
seconds count into days, hours, minutes, seconds. -/
def _split_time (time : Nat) : Nat × Nat × Nat × Nat :=
  (time / 60 / 60 / 24, time / 60 / 60 % 24, time / 60 % 60, time % 60)

/-- C10: Time decomposition correctness: for every 32-bit unsigned
seconds value `t`, `_split_time` produces days, hours, minutes, seconds
with hours < 24, minutes < 60, seconds < 60, and
`days*86400 + hours*3600 + minutes*60 + seconds = t`; the recomposition
equals `t` exactly, so it stays below `2^32` (no overflow). -/
theorem split_time_correct (t : Nat) (h : t < 2 ^ 32) :
    (_split_time t).2.1 < 24 ∧ (_split_time t).2.2.1 < 60 ∧
    (_split_time t).2.2.2 < 60 ∧
    (_split_time t).1 * 86400 + (_split_time t).2.1 * 3600 +
      (_split_time t).2.2.1 * 60 + (_split_time t).2.2.2 = t ∧
    (_split_time t).1 * 86400 + (_split_time t).2.1 * 3600 +
      (_split_time t).2.2.1 * 60 + (_split_time t).2.2.2 < 2 ^ 32 := by
  unfold _split_time
  simp only
  omega

/-- Witness for `split_time_correct`: `t = 123456` seconds splits into
1 day, 10 hours, 17 minutes, 36 seconds. -/
theorem split_time_correct_witness :
    (_split_time 123456).2.1 < 24 ∧ (_split_time 123456).2.2.1 < 60 ∧
    (_split_time 123456).2.2.2 < 60 ∧
    (_split_time 123456).1 * 86400 + (_split_time 123456).2.1 * 3600 +
      (_split_time 123456).2.2.1 * 60 + (_split_time 123456).2.2.2 = 123456 ∧
    (_split_time 123456).1 * 86400 + (_split_time 123456).2.1 * 3600 +
      (_split_time 123456).2.2.1 * 60 + (_split_time 123456).2.2.2 < 2 ^ 32 :=
  split_time_correct 123456 (by norm_num)
